import Mathlib

/-!
Formal model of the Tubely upload-to-storage pipeline: the video upload
handler `handlerUploadVideo` with its helpers `getVideoAspectRatio` and
`processVideoForFastStart` (from `handler_upload_video.go`), and the two
observed `handlerUploadThumbnail` variants (one writes the thumbnail into the
assets directory, the other stores a base64 data URL).

Modelling conventions:

* Go `float64` arithmetic in the aspect-ratio classifier is modelled by exact
  rational arithmetic over `ℚ`; `math.Abs` is modelled by `fabs`.  Division by
  a zero height, which in Go yields a non-finite float for which both
  tolerance comparisons are false, is modelled by rational division by zero,
  which yields the junk value `0`, for which both tolerance comparisons are
  likewise false, so the classification agrees.
* Side effects (file creation and removal, subprocess invocation, the
  object-store put and the record-store update) are recorded in an ordered
  event trace (`Ev`).  The outcomes of the fallible external calls are inputs
  to the model, collected in an environment record per handler; each Go
  `defer` is modelled by the cleanup events that every return path reached
  after its registration appends, in LIFO order.
* HTTP responses are modelled by a status code plus an optional response
  record.
-/

namespace Tubely

/-- Go `math.Abs` on the rational model of `float64`. -/
def fabs (q : ℚ) : ℚ := if q < 0 then -q else q

/-- The Go constant `tolerance = 0.1` from `getVideoAspectRatio`. -/
def tolerance : ℚ := 1/10

/-- Geometry of one ffprobe stream: the `Width` and `Height` fields of an
entry of `FFProbeOutput.Streams` (Go `int`). -/
structure StreamGeom where
  width : Int
  height : Int
deriving DecidableEq

/-- The Go `FFProbeOutput` struct: the list of streams ffprobe reported. -/
structure FFProbeOutput where
  streams : List StreamGeom
deriving DecidableEq

/-- Outcome of running the ffprobe subprocess and JSON-unmarshalling its
stdout, the two external effects at the start of `getVideoAspectRatio`:
`toolFailure` is `cmd.Run()` returning an error (non-zero exit),
`badOutput` is `json.Unmarshal` failing, and `ok` carries the parsed
output. -/
inductive ProbeResult where
  | toolFailure : ProbeResult
  | badOutput : ProbeResult
  | ok (out : FFProbeOutput) : ProbeResult
deriving DecidableEq

/-- The pure classification tail of `getVideoAspectRatio`: compute
`ratio := float64(width) / float64(height)` and compare against 16:9 and
9:16 with the fixed tolerance, in source order. -/
def classifyGeometry (width height : Int) : String :=
  let ratio : ℚ := (width : ℚ) / (height : ℚ)
  if fabs (ratio - 16/9) < tolerance then "16:9"
  else if fabs (ratio - 9/16) < tolerance then "9:16"
  else "other"

/-- Model of `getVideoAspectRatio`: fails when ffprobe exits non-zero, when its output
does not unmarshal, or when it reports zero streams (`"no streams found"`);
otherwise classifies the geometry of the first stream. -/
def getVideoAspectRatio (res : ProbeResult) : Except String String :=
  match res with
  | ProbeResult.toolFailure => Except.error "ffprobe exited with a non-zero status"
  | ProbeResult.badOutput => Except.error "could not unmarshal ffprobe output"
  | ProbeResult.ok out =>
      match out.streams with
      | [] => Except.error "no streams found"
      | s :: _ => Except.ok (classifyGeometry s.width s.height)

/-- One lowercase hexadecimal digit, as `fmt.Sprintf("%x", ...)` prints it:
digits `0`-`9` then letters `a`-`f`. -/
def hexDigit (n : Nat) : Char :=
  if n < 10 then Char.ofNat (48 + n) else Char.ofNat (87 + n)

/-- Characters of the Go `%x` rendering of a byte slice: two lowercase hex
digits per byte, high nibble first. -/
def bytesToHexChars : List Nat → List Char
  | [] => []
  | b :: rest => hexDigit (b / 16) :: hexDigit (b % 16) :: bytesToHexChars rest

/-- Go `fmt.Sprintf("%x", bytes)`. -/
def bytesToHex (bs : List Nat) : String := String.mk (bytesToHexChars bs)

/-- The `switch aspectRatio` statement of `handlerUploadVideo` choosing the
storage-key path component. -/
def prefixFor (aspect : String) : String :=
  if aspect = "16:9" then "landscape/"
  else if aspect = "9:16" then "portrait/"
  else "other/"

/-- The storage key built in `handlerUploadVideo`:
`key := prefix + fmt.Sprintf("%x.mp4", randomHex)`. -/
def deriveKey (aspect : String) (bs : List Nat) : String :=
  prefixFor aspect ++ bytesToHex bs ++ ".mp4"

/-- Worker for Go `filepath.Ext`: scan the path from its end; stop with `""`
at a path separator, and at a dot return the dot together with the
characters scanned so far (`acc`, kept in original order). -/
def extAux : List Char → List Char → List Char
  | [], _ => []
  | c :: rest, acc =>
    if c = '/' then []
    else if c = '.' then '.' :: acc
    else extAux rest (c :: acc)

/-- Go `filepath.Ext`: the suffix beginning at the final dot in the final
path element, empty when there is no dot. -/
def filepathExt (path : String) : String := String.mk (extAux path.data.reverse [])

/-- Go `strings.TrimSuffix`: drop the suffix when present, else return the
string unchanged. -/
def trimSuffix (s suf : String) : String :=
  if suf.data.isSuffixOf s.data then String.mk (s.data.take (s.data.length - suf.data.length))
  else s

/-- The output path derived in `processVideoForFastStart`: strip the
extension, append `".processing"`, re-append the extension. -/
def processingPath (filePath : String) : String :=
  let ext := filepathExt filePath
  let base := trimSuffix filePath ext
  base ++ ".processing" ++ ext

/-- Record the handler response: the HTTP status written, the ordered trace
of side effects, and the JSON response record when one is sent. -/
inductive Ev where
  | tempCreated (path : String) : Ev
  | processedCreated (path : String) : Ev
  | assetCreated (path : String) : Ev
  | fileRemoved (path : String) : Ev
  | ffprobeCalled (path : String) : Ev
  | keyDerived (key : String) : Ev
  | ffmpegCalled (inputPath outputPath : String) : Ev
  | putObject (bucket key : String) : Ev
  | dbUpdateURL (url : String) : Ev
  | dbUpdateRecord (thumbnailURL : String) : Ev
deriving DecidableEq

/-- The fields of the database video record the handlers read or write. -/
structure VideoRecord where
  userID : String
  videoURL : Option String
  thumbnailURL : Option String
deriving DecidableEq

/-- A handler run: HTTP status, ordered side-effect trace, and the response
record when the handler answered 200 with a JSON body. -/
structure HandlerResult where
  status : Nat
  events : List Ev
  body : Option VideoRecord
deriving DecidableEq

/-- Model of `processVideoForFastStart`: derive the output path, run
`ffmpeg -i filePath -c copy -movflags faststart -f mp4 outputFilePath`, and
return the output path on success, an error when ffmpeg exits non-zero.
`ffmpegExitOk` is the subprocess outcome; `leftoverOnFail` records whether a
failing ffmpeg run left a partial output file behind.  The function itself
never removes a file and never writes to the input path. -/
def processVideoForFastStart (filePath : String) (ffmpegExitOk leftoverOnFail : Bool) :
    Except String String × List Ev :=
  let outputFilePath := processingPath filePath
  if ffmpegExitOk then
    (Except.ok outputFilePath,
     [Ev.ffmpegCalled filePath outputFilePath, Ev.processedCreated outputFilePath])
  else
    (Except.error "ffmpeg exited with a non-zero status",
     Ev.ffmpegCalled filePath outputFilePath ::
       (if leftoverOnFail then [Ev.processedCreated outputFilePath] else []))

/-- Environment of one `handlerUploadVideo` request: the outcome of every
fallible external call, in source order, plus the configuration strings the
handler reads. -/
structure UploadEnv where
  tokenOk : Bool
  jwtUser : Option String
  videoIDOk : Bool
  dbVideo : Option VideoRecord
  parseFormOk : Bool
  formFileOk : Bool
  mediaType : Option String
  createTempOk : Bool
  tempName : String
  copyOk : Bool
  seekOk : Bool
  probeResult : ProbeResult
  randOk : Bool
  randBytes : List Nat
  ffmpegExitOk : Bool
  ffmpegLeftoverOnFail : Bool
  openProcessedOk : Bool
  s3Bucket : String
  putObjectOk : Bool
  cfDistribution : String
  updateURLOk : Bool
  dbVideoAfter : Option VideoRecord
deriving DecidableEq

/-- Model of `handlerUploadVideo`, translated check for check in source order.  The
two `defer` statements registered after `os.CreateTemp` make every later
return path end with `fileRemoved tempName`; the `defer` removing the
processed file is registered only after `os.Open(processedFilePath)`
succeeds, so the paths returning before that point do not remove it. -/
def handlerUploadVideo (env : UploadEnv) : HandlerResult :=
  if !env.tokenOk then { status := 401, events := [], body := none }
  else match env.jwtUser with
  | none => { status := 401, events := [], body := none }
  | some userID =>
  if !env.videoIDOk then { status := 400, events := [], body := none }
  else match env.dbVideo with
  | none => { status := 404, events := [], body := none }
  | some videoMetaData =>
  if videoMetaData.userID ≠ userID then { status := 401, events := [], body := none }
  else if !env.parseFormOk then { status := 400, events := [], body := none }
  else if !env.formFileOk then { status := 400, events := [], body := none }
  else match env.mediaType with
  | none => { status := 400, events := [], body := none }
  | some contentType =>
  if contentType ≠ "video/mp4" then { status := 400, events := [], body := none }
  else if !env.createTempOk then { status := 500, events := [], body := none }
  else
    let tmp := env.tempName
    let cleanupTemp := [Ev.fileRemoved tmp]
    if !env.copyOk then { status := 500, events := Ev.tempCreated tmp :: cleanupTemp, body := none }
    else if !env.seekOk then
      { status := 500, events := Ev.tempCreated tmp :: cleanupTemp, body := none }
    else
      let ev1 := [Ev.tempCreated tmp, Ev.ffprobeCalled tmp]
      match getVideoAspectRatio env.probeResult with
      | Except.error _ => { status := 500, events := ev1 ++ cleanupTemp, body := none }
      | Except.ok aspect =>
      if !env.randOk then { status := 500, events := ev1 ++ cleanupTemp, body := none }
      else
        let key := deriveKey aspect env.randBytes
        let ev2 := ev1 ++ [Ev.keyDerived key]
        match processVideoForFastStart tmp env.ffmpegExitOk env.ffmpegLeftoverOnFail with
        | (Except.error _, remuxEvs) =>
            { status := 500, events := ev2 ++ remuxEvs ++ cleanupTemp, body := none }
        | (Except.ok processedFilePath, remuxEvs) =>
        if !env.openProcessedOk then
          { status := 500, events := ev2 ++ remuxEvs ++ cleanupTemp, body := none }
        else
          let cleanupBoth := [Ev.fileRemoved processedFilePath, Ev.fileRemoved tmp]
          let ev3 := ev2 ++ remuxEvs ++ [Ev.putObject env.s3Bucket key]
          if !env.putObjectOk then { status := 500, events := ev3 ++ cleanupBoth, body := none }
          else
            let videoURL := "https://" ++ env.cfDistribution ++ "/" ++ key
            let ev4 := ev3 ++ [Ev.dbUpdateURL videoURL]
            if !env.updateURLOk then { status := 500, events := ev4 ++ cleanupBoth, body := none }
            else match env.dbVideoAfter with
            | none => { status := 500, events := ev4 ++ cleanupBoth, body := none }
            | some updated =>
                { status := 200, events := ev4 ++ cleanupBoth, body := some updated }

/-- One character of the base64 alphabet shared by the URL-safe and the
standard encodings at indices 0 to 61: `A`-`Z`, `a`-`z`, `0`-`9`; indices 62
and 63 here follow `base64.RawURLEncoding` (`-` and `_`). -/
def b64URLChar (n : Nat) : Char :=
  if n < 26 then Char.ofNat (65 + n)
  else if n < 52 then Char.ofNat (71 + n)
  else if n < 62 then Char.ofNat (n - 4)
  else if n = 62 then '-'
  else '_'

/-- One character of the standard base64 alphabet (`+` and `/` at indices 62
and 63). -/
def b64StdChar (n : Nat) : Char :=
  if n = 62 then '+' else if n = 63 then '/' else b64URLChar n

/-- Characters of Go `base64.RawURLEncoding.EncodeToString`: groups of three
bytes become four sextet characters, a trailing group of one or two bytes
becomes two or three characters, with no padding. -/
def rawURLEncodeChars : List Nat → List Char
  | [] => []
  | [b1] => [b64URLChar (b1 / 4), b64URLChar (b1 % 4 * 16)]
  | [b1, b2] =>
      [b64URLChar (b1 / 4), b64URLChar (b1 % 4 * 16 + b2 / 16), b64URLChar (b2 % 16 * 4)]
  | b1 :: b2 :: b3 :: rest =>
      b64URLChar (b1 / 4) :: b64URLChar (b1 % 4 * 16 + b2 / 16) ::
      b64URLChar (b2 % 16 * 4 + b3 / 64) :: b64URLChar (b3 % 64) :: rawURLEncodeChars rest

/-- Go `base64.RawURLEncoding.EncodeToString`. -/
def rawURLEncode (bs : List Nat) : String := String.mk (rawURLEncodeChars bs)

/-- Characters of Go `base64.StdEncoding.EncodeToString`, with `=` padding. -/
def stdEncodeChars : List Nat → List Char
  | [] => []
  | [b1] => [b64StdChar (b1 / 4), b64StdChar (b1 % 4 * 16), '=', '=']
  | [b1, b2] =>
      [b64StdChar (b1 / 4), b64StdChar (b1 % 4 * 16 + b2 / 16), b64StdChar (b2 % 16 * 4), '=']
  | b1 :: b2 :: b3 :: rest =>
      b64StdChar (b1 / 4) :: b64StdChar (b1 % 4 * 16 + b2 / 16) ::
      b64StdChar (b2 % 16 * 4 + b3 / 64) :: b64StdChar (b3 % 64) :: stdEncodeChars rest

/-- Go `base64.StdEncoding.EncodeToString`. -/
def stdEncode (bs : List Nat) : String := String.mk (stdEncodeChars bs)

/-- The part of a character list between the first separator `/` and the
next one: `strings.Split(mediaType, "/")` indexed at 1, as the assets-dir
thumbnail handler computes the file extension. -/
def secondSlashPart : List Char → List Char
  | [] => []
  | c :: rest => if c = '/' then rest.takeWhile (fun d => d != '/') else secondSlashPart rest

/-- The extension the assets-dir thumbnail handler derives from the media
type: `strings.Split(mediaType, "/")[1]`. -/
def mediaTypeExt (mt : String) : String := String.mk (secondSlashPart mt.data)

/-- Go `filepath.Join` on two elements for the common case of a non-empty
first element without trailing separator (the cleaning pass of `Join` is not
modelled). -/
def joinPath (dir name : String) : String :=
  if dir = "" then name else dir ++ "/" ++ name

/-- Environment of one request to the assets-directory variant of
`handlerUploadThumbnail` (the variant that writes the thumbnail file under
`cfg.assetsRoot`).  Note the source ignores the return value of
`r.ParseMultipartForm` and of `rand.Read`, so neither can fail here. -/
structure ThumbAssetsEnv where
  videoIDOk : Bool
  tokenOk : Bool
  jwtUser : Option String
  formFileOk : Bool
  mediaType : Option String
  randBytes : List Nat
  assetsRoot : String
  mkdirOk : Bool
  createOk : Bool
  copyOk : Bool
  dbVideo : Option VideoRecord
  updateOk : Bool
  port : String
deriving DecidableEq

/-- The assets-directory variant of `handlerUploadThumbnail`, translated in
source order.  The ownership check happens only after the thumbnail file has
been created and the upload copied into it, and no path removes the file. -/
def handlerUploadThumbnailAssets (env : ThumbAssetsEnv) : HandlerResult :=
  if !env.videoIDOk then { status := 400, events := [], body := none }
  else if !env.tokenOk then { status := 401, events := [], body := none }
  else match env.jwtUser with
  | none => { status := 401, events := [], body := none }
  | some userID =>
  if !env.formFileOk then { status := 400, events := [], body := none }
  else match env.mediaType with
  | none => { status := 400, events := [], body := none }
  | some mediaType =>
  if mediaType ≠ "image/jpeg" ∧ mediaType ≠ "image/png" then
    { status := 400, events := [], body := none }
  else
    let extension := mediaTypeExt mediaType
    let encoded := rawURLEncode env.randBytes
    let filePath := joinPath env.assetsRoot (encoded ++ "." ++ extension)
    if !env.mkdirOk then { status := 500, events := [], body := none }
    else if !env.createOk then { status := 500, events := [], body := none }
    else
      let ev1 := [Ev.assetCreated filePath]
      if !env.copyOk then { status := 500, events := ev1, body := none }
      else match env.dbVideo with
      | none => { status := 404, events := ev1, body := none }
      | some videoMetaData =>
      if videoMetaData.userID ≠ userID then { status := 401, events := ev1, body := none }
      else
        let thumbnailURL :=
          "http://localhost:" ++ env.port ++ "/assets/" ++ encoded ++ "." ++ extension
        let ev2 := ev1 ++ [Ev.dbUpdateRecord thumbnailURL]
        if !env.updateOk then { status := 500, events := ev2, body := none }
        else
          { status := 200, events := ev2,
            body := some { videoMetaData with thumbnailURL := some thumbnailURL } }

/-- Environment of one request to the data-URL variant of
`handlerUploadThumbnail` (the variant that stores the image inline as a
base64 data URL).  This variant reads the declared content type but never
validates it. -/
structure ThumbDataURLEnv where
  videoIDOk : Bool
  tokenOk : Bool
  jwtUser : Option String
  formFileOk : Bool
  mediaType : String
  readAllOk : Bool
  imageData : List Nat
  dbVideo : Option VideoRecord
  updateOk : Bool
deriving DecidableEq

/-- The data-URL variant of `handlerUploadThumbnail`, translated in source
order.  No content-type check exists on this path. -/
def handlerUploadThumbnailDataURL (env : ThumbDataURLEnv) : HandlerResult :=
  if !env.videoIDOk then { status := 400, events := [], body := none }
  else if !env.tokenOk then { status := 401, events := [], body := none }
  else match env.jwtUser with
  | none => { status := 401, events := [], body := none }
  | some userID =>
  if !env.formFileOk then { status := 400, events := [], body := none }
  else if !env.readAllOk then { status := 400, events := [], body := none }
  else
    let dataUrl := "data:" ++ env.mediaType ++ ";base64," ++ stdEncode env.imageData
    match env.dbVideo with
    | none => { status := 404, events := [], body := none }
    | some videoMetaData =>
    if videoMetaData.userID ≠ userID then { status := 401, events := [], body := none }
    else
      let ev1 := [Ev.dbUpdateRecord dataUrl]
      if !env.updateOk then { status := 500, events := ev1, body := none }
      else
        { status := 200, events := ev1,
          body := some { videoMetaData with thumbnailURL := some dataUrl } }

/-- The events of a trace that happen strictly before the first occurrence
of `e`. -/
def eventsBefore (l : List Ev) (e : Ev) : List Ev := l.takeWhile (fun x => x != e)

/-- A video record owned by the user `"owner"`, with no URLs yet. -/
def ownerRecord : VideoRecord := { userID := "owner", videoURL := none, thumbnailURL := none }

/-- A fully successful `handlerUploadVideo` environment: every external call
succeeds, the probed stream is 1280 x 720, and the sixteen random bytes are
all zero. -/
def baseEnv : UploadEnv :=
  { tokenOk := true
    jwtUser := some "owner"
    videoIDOk := true
    dbVideo := some ownerRecord
    parseFormOk := true
    formFileOk := true
    mediaType := some "video/mp4"
    createTempOk := true
    tempName := "/tmp/tubely-upload.mp4"
    copyOk := true
    seekOk := true
    probeResult := ProbeResult.ok { streams := [{ width := 1280, height := 720 }] }
    randOk := true
    randBytes := List.replicate 16 0
    ffmpegExitOk := true
    ffmpegLeftoverOnFail := false
    openProcessedOk := true
    s3Bucket := "tubely"
    putObjectOk := true
    cfDistribution := "cdn.example.com"
    updateURLOk := true
    dbVideoAfter := some { userID := "owner",
                           videoURL := some "https://cdn.example.com/landscape/x.mp4",
                           thumbnailURL := none } }

/-- The environment of `baseEnv` except that opening the processed file
fails after a successful remux. -/
def leakEnv : UploadEnv := { baseEnv with openProcessedOk := false }

/-- The environment of `baseEnv` except that ffmpeg exits non-zero leaving a
partial output file behind. -/
def remuxFailEnv : UploadEnv :=
  { baseEnv with ffmpegExitOk := false, ffmpegLeftoverOnFail := true }

/-- The environment of `baseEnv` except that the declared content type is
`image/gif`. -/
def gifVideoEnv : UploadEnv := { baseEnv with mediaType := some "image/gif" }

/-- The environment of `baseEnv` except that the authenticated user is not
the record owner. -/
def intruderEnv : UploadEnv := { baseEnv with jwtUser := some "intruder" }

/-- The environment of `baseEnv` except that ffprobe exits non-zero. -/
def probeFailEnv : UploadEnv := { baseEnv with probeResult := ProbeResult.toolFailure }

/-- A request to the data-URL thumbnail variant declaring `image/gif`, with
every external call succeeding. -/
def gifThumbEnv : ThumbDataURLEnv :=
  { videoIDOk := true
    tokenOk := true
    jwtUser := some "owner"
    formFileOk := true
    mediaType := "image/gif"
    readAllOk := true
    imageData := []
    dbVideo := some ownerRecord
    updateOk := true }

/-- A request to the assets-dir thumbnail variant by an authenticated user
who does not own the record, with every external call succeeding. -/
def intruderThumbEnv : ThumbAssetsEnv :=
  { videoIDOk := true
    tokenOk := true
    jwtUser := some "intruder"
    formFileOk := true
    mediaType := some "image/jpeg"
    randBytes := List.replicate 32 0
    assetsRoot := "assets"
    mkdirOk := true
    createOk := true
    copyOk := true
    dbVideo := some ownerRecord
    updateOk := true
    port := "8091" }

/-- The branch-free characterisation of `fabs`: it agrees with the absolute
value on `ℚ`. -/
theorem fabs_eq_abs (q : ℚ) : fabs q = |q| := by
  unfold fabs
  split
  · exact (abs_of_neg (by assumption)).symm
  · exact (abs_of_nonneg (by linarith)).symm

/-- Every hex rendering has two characters per byte. -/
theorem bytesToHexChars_length (bs : List Nat) : (bytesToHexChars bs).length = 2 * bs.length := by
  induction bs with
  | nil => rfl
  | cons b rest ih =>
      simp only [bytesToHexChars, List.length_cons, ih]
      omega

/-- Hex digits of nibbles are lowercase hexadecimal characters. -/
theorem hexDigit_mem (n : Nat) (h : n < 16) : hexDigit n ∈ "0123456789abcdef".data := by
  revert h
  revert n
  decide

/-- Every character of the hex rendering of a byte list is a lowercase
hexadecimal character. -/
theorem bytesToHexChars_mem (bs : List Nat) (h : ∀ b ∈ bs, b < 256) :
    ∀ c ∈ bytesToHexChars bs, c ∈ "0123456789abcdef".data := by
  induction bs with
  | nil => intro c hc; cases hc
  | cons b rest ih =>
      intro c hc
      have hb : b < 256 := h b (List.mem_cons_self b rest)
      simp only [bytesToHexChars, List.mem_cons] at hc
      rcases hc with rfl | rfl | hc
      · exact hexDigit_mem (b / 16) (by omega)
      · exact hexDigit_mem (b % 16) (by omega)
      · exact ih (fun x hx => h x (List.mem_cons_of_mem b hx)) c hc

/-- Branch-free form of the classifier: the same two-stage tolerance test,
with the absolute value written as `|·|` and the tolerance as `1/10`. -/
theorem classifyGeometry_eq (width height : Int) :
    classifyGeometry width height =
      (if |(width : ℚ) / (height : ℚ) - 16/9| < 1/10 then "16:9"
       else if |(width : ℚ) / (height : ℚ) - 9/16| < 1/10 then "9:16"
       else "other") := by
  show (if fabs ((width : ℚ) / (height : ℚ) - 16/9) < 1/10 then "16:9"
        else if fabs ((width : ℚ) / (height : ℚ) - 9/16) < 1/10 then "9:16"
        else "other") = _
  rw [fabs_eq_abs, fabs_eq_abs]

/-- C1: for every width and height read from the first probed stream, with
the ratio `w/h` taken over the exact rationals that model the float
computation, the classifier answers `"16:9"` exactly when
`|w/h - 16/9| < 0.1`, answers `"9:16"` exactly when that first comparison
fails and `|w/h - 9/16| < 0.1`, answers `"other"` exactly when both fail,
and at the exact tolerance boundary `|w/h - 16/9| = 0.1` the strict
comparison fails, so the classification falls through to the later cases. -/
theorem c1_aspect_classification (width height : Int) :
    (classifyGeometry width height = "16:9" ↔
      |(width : ℚ) / (height : ℚ) - 16/9| < 1/10) ∧
    (classifyGeometry width height = "9:16" ↔
      ¬ |(width : ℚ) / (height : ℚ) - 16/9| < 1/10 ∧
        |(width : ℚ) / (height : ℚ) - 9/16| < 1/10) ∧
    (classifyGeometry width height = "other" ↔
      ¬ |(width : ℚ) / (height : ℚ) - 16/9| < 1/10 ∧
        ¬ |(width : ℚ) / (height : ℚ) - 9/16| < 1/10) ∧
    (|(width : ℚ) / (height : ℚ) - 16/9| = 1/10 →
      classifyGeometry width height ≠ "16:9") := by
  rw [classifyGeometry_eq]
  by_cases h1 : |(width : ℚ) / (height : ℚ) - 16/9| < 1/10
  · rw [if_pos h1]
    refine ⟨⟨fun _ => h1, fun _ => rfl⟩,
      ⟨fun h => absurd h (by decide), fun hx => absurd h1 hx.1⟩,
      ⟨fun h => absurd h (by decide), fun hx => absurd h1 hx.1⟩, fun heq => ?_⟩
    rw [heq] at h1
    exact absurd h1 (by norm_num)
  · rw [if_neg h1]
    by_cases h2 : |(width : ℚ) / (height : ℚ) - 9/16| < 1/10
    · rw [if_pos h2]
      exact ⟨⟨fun h => absurd h (by decide), fun hc => absurd hc h1⟩,
        ⟨fun _ => ⟨h1, h2⟩, fun _ => rfl⟩,
        ⟨fun h => absurd h (by decide), fun hx => absurd h2 hx.2⟩,
        fun _ => by decide⟩
    · rw [if_neg h2]
      exact ⟨⟨fun h => absurd h (by decide), fun hc => absurd hc h1⟩,
        ⟨fun h => absurd h (by decide), fun hx => absurd hx.2 h2⟩,
        ⟨fun _ => ⟨h1, h2⟩, fun _ => rfl⟩,
        fun _ => by decide⟩

/-- C1 witness: the pair 169 x 90 sits exactly on the tolerance boundary for
16:9 and is not classified as landscape. -/
theorem c1_witness :
    |((169 : Int) : ℚ) / ((90 : Int) : ℚ) - 16/9| = 1/10 ∧
      classifyGeometry 169 90 ≠ "16:9" := by
  have hb : |((169 : Int) : ℚ) / ((90 : Int) : ℚ) - 16/9| = 1/10 := by norm_num
  exact ⟨hb, (c1_aspect_classification 169 90).2.2.2 hb⟩

/-- C10: when the first probed stream reports height 0 (any width, zero
included), the modelled float ratio degenerates to the junk value for which
both tolerance comparisons fail, so the inspector neither errors nor panics
and classifies the stream as `"other"`. -/
theorem c10_zero_height_is_other (w : Int) (rest : List StreamGeom) :
    tolerance ≤ fabs ((w : ℚ) / ((0 : Int) : ℚ) - 16/9) ∧
    tolerance ≤ fabs ((w : ℚ) / ((0 : Int) : ℚ) - 9/16) ∧
    classifyGeometry w 0 = "other" ∧
    getVideoAspectRatio (ProbeResult.ok { streams := { width := w, height := 0 } :: rest }) =
      Except.ok "other" := by
  have hz : ((0 : Int) : ℚ) = 0 := by norm_num
  have hr : (w : ℚ) / ((0 : Int) : ℚ) = 0 := by rw [hz, div_zero]
  refine ⟨?_, ?_, ?_, ?_⟩
  · rw [hr]; unfold tolerance fabs; norm_num
  · rw [hr]; unfold tolerance fabs; norm_num
  · unfold classifyGeometry
    rw [hr]
    unfold tolerance fabs
    norm_num
  · unfold getVideoAspectRatio
    simp only
    unfold classifyGeometry
    rw [hr]
    unfold tolerance fabs
    norm_num

/-- C6: every derived storage key is the classification prefix
(`landscape/` for 16:9, `portrait/` for 9:16, `other/` otherwise) followed
by 32 lowercase hexadecimal characters encoding the sixteen random bytes,
followed by the fixed `.mp4` extension, so in particular every key ends in
`.mp4`. -/
theorem c6_storage_key_shape (aspect : String) (bs : List Nat)
    (hlen : bs.length = 16) (hbytes : ∀ b ∈ bs, b < 256) :
    ∃ hex : String,
      deriveKey aspect bs = prefixFor aspect ++ hex ++ ".mp4" ∧
      hex.length = 32 ∧
      (∀ c ∈ hex.data, c ∈ "0123456789abcdef".data) ∧
      (aspect = "16:9" → prefixFor aspect = "landscape/") ∧
      (aspect = "9:16" → prefixFor aspect = "portrait/") ∧
      (aspect ≠ "16:9" → aspect ≠ "9:16" → prefixFor aspect = "other/") ∧
      ∃ stem : String, deriveKey aspect bs = stem ++ ".mp4" := by
  refine ⟨bytesToHex bs, rfl, ?_, ?_, ?_, ?_, ?_, ?_⟩
  · show (bytesToHexChars bs).length = 32
    rw [bytesToHexChars_length, hlen]
  · exact bytesToHexChars_mem bs hbytes
  · intro h; simp [prefixFor, h]
  · intro h; simp [prefixFor, h]
  · intro h1 h2; simp [prefixFor, h1, h2]
  · exact ⟨prefixFor aspect ++ bytesToHex bs, rfl⟩

/-- C6 witness: sixteen zero bytes produce the key
`landscape/` + 32 zeros + `.mp4` for a 16:9 classification. -/
theorem c6_witness :
    (List.replicate 16 0).length = 16 ∧
    ∃ hex : String,
      deriveKey "16:9" (List.replicate 16 0) = prefixFor "16:9" ++ hex ++ ".mp4" ∧
      hex.length = 32 ∧
      (∀ c ∈ hex.data, c ∈ "0123456789abcdef".data) ∧
      ("16:9" = "16:9" → prefixFor "16:9" = "landscape/") ∧
      ("16:9" = "9:16" → prefixFor "16:9" = "portrait/") ∧
      ("16:9" ≠ "16:9" → "16:9" ≠ "9:16" → prefixFor "16:9" = "other/") ∧
      ∃ stem : String, deriveKey "16:9" (List.replicate 16 0) = stem ++ ".mp4" :=
  ⟨by decide, c6_storage_key_shape "16:9" (List.replicate 16 0) (by decide) (by decide)⟩

/-- The extension scanner either finds no extension or returns a genuine
suffix of the scanned text: reading `r` as the reversed remainder of the
path and `acc` as the characters already scanned past, the reconstructed
text splits as some stem followed by the returned extension. -/
theorem extAux_spec (r : List Char) :
    ∀ acc : List Char, extAux r acc = [] ∨ ∃ s, r.reverse ++ acc = s ++ extAux r acc := by
  induction r with
  | nil => intro acc; left; rfl
  | cons c rest ih =>
      intro acc
      by_cases hsep : c = '/'
      · left; simp [extAux, hsep]
      · by_cases hdot : c = '.'
        · right
          refine ⟨rest.reverse, ?_⟩
          simp [extAux, hsep, hdot]
        · rcases ih (c :: acc) with h | ⟨s, hs⟩
          · left; simpa [extAux, hsep, hdot] using h
          · right
            refine ⟨s, ?_⟩
            have hrw : (c :: rest).reverse ++ acc = rest.reverse ++ (c :: acc) := by simp
            simp only [extAux, if_neg hsep, if_neg hdot]
            rw [hrw]
            exact hs

/-- Every path splits as a stem followed by its `filepath.Ext` extension. -/
theorem filepathExt_data_split (p : String) :
    ∃ s : List Char, p.data = s ++ (filepathExt p).data := by
  rcases extAux_spec p.data.reverse [] with h | ⟨s, hs⟩
  · exact ⟨p.data, by simp [filepathExt, h]⟩
  · refine ⟨s, ?_⟩
    rw [List.reverse_reverse, List.append_nil] at hs
    exact hs

/-- The processing path splits the input path at its extension and inserts
`".processing"` there. -/
theorem processingPath_split (p : String) :
    ∃ base : String, p = base ++ filepathExt p ∧
      processingPath p = base ++ ".processing" ++ filepathExt p := by
  obtain ⟨s, hsplit⟩ := filepathExt_data_split p
  refine ⟨String.mk s, ?_, ?_⟩
  · apply String.ext
    rw [String.data_append]
    exact hsplit
  · have hsuf : (filepathExt p).data.isSuffixOf p.data = true := by
      rw [List.isSuffixOf_iff_suffix]
      exact ⟨s, hsplit.symm⟩
    show trimSuffix p (filepathExt p) ++ ".processing" ++ filepathExt p = _
    unfold trimSuffix
    rw [if_pos hsuf]
    have hlen : p.data.length - (filepathExt p).data.length = s.length := by
      rw [hsplit, List.length_append]
      omega
    have htake : p.data.take (p.data.length - (filepathExt p).data.length) = s := by
      rw [hlen, hsplit]
      exact List.take_left s (filepathExt p).data
    rw [htake]

/-- The processing path is always distinct from the input path (it is eleven
characters longer). -/
theorem processingPath_ne (p : String) : processingPath p ≠ p := by
  obtain ⟨base, hp, hpp⟩ := processingPath_split p
  intro h
  have h1 : (processingPath p).length = p.length := by rw [h]
  rw [hpp] at h1
  conv_rhs at h1 => rw [hp]
  rw [String.length_append, String.length_append, String.length_append] at h1
  have h11 : (".processing" : String).length = 11 := rfl
  omega

/-- C8: for every input path, the fast-start remuxer derives its output path
by inserting `.processing` immediately before the extension of the path, returns
exactly that path on success, emits no events other than invoking ffmpeg on
(input, output) and creating the output file, never removes any file (in
particular it neither modifies nor deletes the input, whose path always
differs from the output path), and on the example from the spec
`/tmp/x.mp4` the derived path is `/tmp/x.processing.mp4`. -/
theorem c8_fast_start_remux (filePath : String) (exitOk leftover : Bool) :
    (∃ base : String, filePath = base ++ filepathExt filePath ∧
        processingPath filePath = base ++ ".processing" ++ filepathExt filePath) ∧
    (exitOk = true →
      (processVideoForFastStart filePath exitOk leftover).1 =
        Except.ok (processingPath filePath)) ∧
    (∀ ev ∈ (processVideoForFastStart filePath exitOk leftover).2,
        ev = Ev.ffmpegCalled filePath (processingPath filePath) ∨
        ev = Ev.processedCreated (processingPath filePath)) ∧
    (∀ q : String, Ev.fileRemoved q ∉ (processVideoForFastStart filePath exitOk leftover).2) ∧
    processingPath filePath ≠ filePath ∧
    processingPath "/tmp/x.mp4" = "/tmp/x.processing.mp4" := by
  refine ⟨processingPath_split filePath, ?_, ?_, ?_, processingPath_ne filePath, by decide⟩
  · intro hok
    subst hok
    rfl
  · intro ev hev
    cases exitOk <;> cases leftover <;> simp [processVideoForFastStart] at hev <;> tauto
  · intro q
    cases exitOk <;> cases leftover <;> simp [processVideoForFastStart]

/-- C8 witness: on `/tmp/x.mp4` with a successful ffmpeg run, the remuxer
returns the derived processing path. -/
theorem c8_witness :
    (true : Bool) = true ∧
    (processVideoForFastStart "/tmp/x.mp4" true false).1 =
      Except.ok (processingPath "/tmp/x.mp4") :=
  ⟨rfl, (c8_fast_start_remux "/tmp/x.mp4" true false).2.1 rfl⟩

/-- The fully successful pipeline run, reduced to its status, trace and
body: every external call succeeds and the probed stream list is
non-empty. -/
theorem handler_success_run (env : UploadEnv) (u : String) (rec recAfter : VideoRecord)
    (w hgt : Int) (rest : List StreamGeom)
    (htok : env.tokenOk = true) (hjwt : env.jwtUser = some u) (hvid : env.videoIDOk = true)
    (hdb : env.dbVideo = some rec) (hown : rec.userID = u) (hpf : env.parseFormOk = true)
    (hff : env.formFileOk = true) (hmt : env.mediaType = some "video/mp4")
    (hct : env.createTempOk = true) (hcp : env.copyOk = true) (hsk : env.seekOk = true)
    (hpr : env.probeResult = ProbeResult.ok { streams := { width := w, height := hgt } :: rest })
    (hrand : env.randOk = true) (hfm : env.ffmpegExitOk = true)
    (hop : env.openProcessedOk = true) (hput : env.putObjectOk = true)
    (hupd : env.updateURLOk = true) (hafter : env.dbVideoAfter = some recAfter) :
    (handlerUploadVideo env).status = 200 ∧
    (handlerUploadVideo env).events =
      [Ev.tempCreated env.tempName,
       Ev.ffprobeCalled env.tempName,
       Ev.keyDerived (deriveKey (classifyGeometry w hgt) env.randBytes),
       Ev.ffmpegCalled env.tempName (processingPath env.tempName),
       Ev.processedCreated (processingPath env.tempName),
       Ev.putObject env.s3Bucket (deriveKey (classifyGeometry w hgt) env.randBytes),
       Ev.dbUpdateURL ("https://" ++ env.cfDistribution ++ "/" ++
         deriveKey (classifyGeometry w hgt) env.randBytes),
       Ev.fileRemoved (processingPath env.tempName),
       Ev.fileRemoved env.tempName] ∧
    (handlerUploadVideo env).body = some recAfter := by
  simp [handlerUploadVideo, getVideoAspectRatio, processVideoForFastStart,
        htok, hjwt, hvid, hdb, hown, hpf, hff, hmt, hct, hcp, hsk, hpr, hrand, hfm, hop,
        hput, hupd, hafter]

/-- C4 counterexample: in a fully successful run, the storage key is derived
and ffmpeg is invoked, yet the ffmpeg invocation does not occur before the
key derivation in the trace — the code derives the key first, violating the
claimed `Remuxed` before `Keyed` ordering. -/
theorem c4_key_derived_before_remux :
    Ev.keyDerived (deriveKey "16:9" (List.replicate 16 0)) ∈ (handlerUploadVideo baseEnv).events ∧
    Ev.ffmpegCalled "/tmp/tubely-upload.mp4" "/tmp/tubely-upload.processing.mp4" ∈
      (handlerUploadVideo baseEnv).events ∧
    Ev.ffmpegCalled "/tmp/tubely-upload.mp4" "/tmp/tubely-upload.processing.mp4" ∉
      eventsBefore (handlerUploadVideo baseEnv).events
        (Ev.keyDerived (deriveKey "16:9" (List.replicate 16 0))) := by
  with_unfolding_all decide

/-- C4 (amended): in every fully successful run the observable pipeline
order is staging, then inspection, then key derivation, then remuxing, then
transfer, then record update, then cleanup — the order given by the spec except
that the storage key is derived after classification but before the remux
step rather than after it. -/
theorem c4_amended_pipeline_order (env : UploadEnv) (u : String) (rec recAfter : VideoRecord)
    (w hgt : Int) (rest : List StreamGeom)
    (htok : env.tokenOk = true) (hjwt : env.jwtUser = some u) (hvid : env.videoIDOk = true)
    (hdb : env.dbVideo = some rec) (hown : rec.userID = u) (hpf : env.parseFormOk = true)
    (hff : env.formFileOk = true) (hmt : env.mediaType = some "video/mp4")
    (hct : env.createTempOk = true) (hcp : env.copyOk = true) (hsk : env.seekOk = true)
    (hpr : env.probeResult = ProbeResult.ok { streams := { width := w, height := hgt } :: rest })
    (hrand : env.randOk = true) (hfm : env.ffmpegExitOk = true)
    (hop : env.openProcessedOk = true) (hput : env.putObjectOk = true)
    (hupd : env.updateURLOk = true) (hafter : env.dbVideoAfter = some recAfter) :
    (handlerUploadVideo env).status = 200 ∧
    (handlerUploadVideo env).events =
      [Ev.tempCreated env.tempName,
       Ev.ffprobeCalled env.tempName,
       Ev.keyDerived (deriveKey (classifyGeometry w hgt) env.randBytes),
       Ev.ffmpegCalled env.tempName (processingPath env.tempName),
       Ev.processedCreated (processingPath env.tempName),
       Ev.putObject env.s3Bucket (deriveKey (classifyGeometry w hgt) env.randBytes),
       Ev.dbUpdateURL ("https://" ++ env.cfDistribution ++ "/" ++
         deriveKey (classifyGeometry w hgt) env.randBytes),
       Ev.fileRemoved (processingPath env.tempName),
       Ev.fileRemoved env.tempName] := by
  obtain ⟨h1, h2, _⟩ := handler_success_run env u rec recAfter w hgt rest htok hjwt hvid hdb
    hown hpf hff hmt hct hcp hsk hpr hrand hfm hop hput hupd hafter
  exact ⟨h1, h2⟩

/-- C4 witness: the amended ordering at the concrete successful
environment. -/
theorem c4_amended_witness :
    (handlerUploadVideo baseEnv).status = 200 ∧
    (handlerUploadVideo baseEnv).events =
      [Ev.tempCreated "/tmp/tubely-upload.mp4",
       Ev.ffprobeCalled "/tmp/tubely-upload.mp4",
       Ev.keyDerived (deriveKey (classifyGeometry 1280 720) (List.replicate 16 0)),
       Ev.ffmpegCalled "/tmp/tubely-upload.mp4" (processingPath "/tmp/tubely-upload.mp4"),
       Ev.processedCreated (processingPath "/tmp/tubely-upload.mp4"),
       Ev.putObject "tubely" (deriveKey (classifyGeometry 1280 720) (List.replicate 16 0)),
       Ev.dbUpdateURL ("https://" ++ "cdn.example.com" ++ "/" ++
         deriveKey (classifyGeometry 1280 720) (List.replicate 16 0)),
       Ev.fileRemoved (processingPath "/tmp/tubely-upload.mp4"),
       Ev.fileRemoved "/tmp/tubely-upload.mp4"] :=
  c4_amended_pipeline_order baseEnv "owner" ownerRecord
    { userID := "owner", videoURL := some "https://cdn.example.com/landscape/x.mp4",
      thumbnailURL := none }
    1280 720 [] rfl rfl rfl rfl rfl rfl rfl rfl rfl rfl rfl rfl rfl rfl rfl rfl rfl rfl

/-- C9: on a fully successful upload of an accepted MP4 whose first stream
classifies as landscape, the pipeline puts the processed object under a key
`landscape/` + 32 lowercase hex characters + `.mp4`, writes
`https://` + distribution host + `/` + key into the video record, and
responds 200 with the record as re-read from the record store. -/
theorem c9_successful_landscape_upload (env : UploadEnv) (u : String) (rec recAfter : VideoRecord)
    (w hgt : Int) (rest : List StreamGeom)
    (htok : env.tokenOk = true) (hjwt : env.jwtUser = some u) (hvid : env.videoIDOk = true)
    (hdb : env.dbVideo = some rec) (hown : rec.userID = u) (hpf : env.parseFormOk = true)
    (hff : env.formFileOk = true) (hmt : env.mediaType = some "video/mp4")
    (hct : env.createTempOk = true) (hcp : env.copyOk = true) (hsk : env.seekOk = true)
    (hpr : env.probeResult = ProbeResult.ok { streams := { width := w, height := hgt } :: rest })
    (hclass : classifyGeometry w hgt = "16:9")
    (hlen : env.randBytes.length = 16) (hbytes : ∀ b ∈ env.randBytes, b < 256)
    (hrand : env.randOk = true) (hfm : env.ffmpegExitOk = true)
    (hop : env.openProcessedOk = true) (hput : env.putObjectOk = true)
    (hupd : env.updateURLOk = true) (hafter : env.dbVideoAfter = some recAfter) :
    ∃ hex : String,
      hex.length = 32 ∧
      (∀ c ∈ hex.data, c ∈ "0123456789abcdef".data) ∧
      (handlerUploadVideo env).status = 200 ∧
      Ev.putObject env.s3Bucket ("landscape/" ++ hex ++ ".mp4") ∈
        (handlerUploadVideo env).events ∧
      Ev.dbUpdateURL ("https://" ++ env.cfDistribution ++ "/" ++
        ("landscape/" ++ hex ++ ".mp4")) ∈ (handlerUploadVideo env).events ∧
      (handlerUploadVideo env).body = some recAfter := by
  obtain ⟨h200, hevents, hbody⟩ := handler_success_run env u rec recAfter w hgt rest htok hjwt
    hvid hdb hown hpf hff hmt hct hcp hsk hpr hrand hfm hop hput hupd hafter
  have hkey : deriveKey (classifyGeometry w hgt) env.randBytes =
      "landscape/" ++ bytesToHex env.randBytes ++ ".mp4" := by
    rw [hclass]
    show prefixFor "16:9" ++ bytesToHex env.randBytes ++ ".mp4" = _
    rw [show prefixFor "16:9" = "landscape/" by rfl]
  refine ⟨bytesToHex env.randBytes, ?_, bytesToHexChars_mem env.randBytes hbytes, h200, ?_, ?_,
    hbody⟩
  · show (bytesToHexChars env.randBytes).length = 32
    rw [bytesToHexChars_length, hlen]
  · rw [hevents, hkey]
    simp
  · rw [hevents, hkey]
    simp

/-- C9 witness: the concrete fully successful 1280 x 720 upload. -/
theorem c9_witness :
    ∃ hex : String,
      hex.length = 32 ∧
      (∀ c ∈ hex.data, c ∈ "0123456789abcdef".data) ∧
      (handlerUploadVideo baseEnv).status = 200 ∧
      Ev.putObject "tubely" ("landscape/" ++ hex ++ ".mp4") ∈
        (handlerUploadVideo baseEnv).events ∧
      Ev.dbUpdateURL ("https://" ++ "cdn.example.com" ++ "/" ++
        ("landscape/" ++ hex ++ ".mp4")) ∈ (handlerUploadVideo baseEnv).events ∧
      (handlerUploadVideo baseEnv).body =
        some { userID := "owner", videoURL := some "https://cdn.example.com/landscape/x.mp4",
               thumbnailURL := none } :=
  c9_successful_landscape_upload baseEnv "owner" ownerRecord
    { userID := "owner", videoURL := some "https://cdn.example.com/landscape/x.mp4",
      thumbnailURL := none }
    1280 720 [] rfl rfl rfl rfl rfl rfl rfl rfl rfl rfl rfl rfl
    (by with_unfolding_all decide) (by decide) (by decide)
    rfl rfl rfl rfl rfl rfl

/-- C7: the container inspector fails exactly when the probing tool exits
non-zero, its output cannot be parsed, or it reports zero streams; and when
it fails in a request that has successfully staged the upload, the handler
answers 500, removes the staged temp file, and never invokes ffmpeg or the
object-store put. -/
theorem c7_probe_failure_aborts_pipeline :
    (∀ r : ProbeResult,
      (∃ e, getVideoAspectRatio r = Except.error e) ↔
        (r = ProbeResult.toolFailure ∨ r = ProbeResult.badOutput ∨
          ∃ out, r = ProbeResult.ok out ∧ out.streams = [])) ∧
    (∀ (env : UploadEnv) (u : String) (rec : VideoRecord) (e : String),
      env.tokenOk = true → env.jwtUser = some u → env.videoIDOk = true →
      env.dbVideo = some rec → rec.userID = u → env.parseFormOk = true →
      env.formFileOk = true → env.mediaType = some "video/mp4" →
      env.createTempOk = true → env.copyOk = true → env.seekOk = true →
      getVideoAspectRatio env.probeResult = Except.error e →
      (handlerUploadVideo env).status = 500 ∧
      (handlerUploadVideo env).events =
        [Ev.tempCreated env.tempName, Ev.ffprobeCalled env.tempName,
         Ev.fileRemoved env.tempName] ∧
      (∀ a b, Ev.ffmpegCalled a b ∉ (handlerUploadVideo env).events) ∧
      (∀ b k, Ev.putObject b k ∉ (handlerUploadVideo env).events)) := by
  constructor
  · intro r
    cases r with
    | toolFailure => simp [ getVideoAspectRatio]
    | badOutput => simp [ getVideoAspectRatio]
    | ok out =>
        cases houts : out.streams with
        | nil =>
            constructor
            · intro _
              exact Or.inr (Or.inr ⟨out, rfl, houts⟩)
            · intro _
              exact ⟨"no streams found", by simp [ getVideoAspectRatio, houts]⟩
        | cons s rest =>
            constructor
            · rintro ⟨e, he⟩
              simp [ getVideoAspectRatio, houts] at he
            · rintro (h | h | ⟨out2, hout2, hstreams⟩)
              · exact ProbeResult.noConfusion h
              · exact ProbeResult.noConfusion h
              · injection hout2 with h2
                rw [← h2, houts] at hstreams
                exact List.noConfusion hstreams
  · intro env u rec e htok hjwt hvid hdb hown hpf hff hmt hct hcp hsk hperr
    simp [handlerUploadVideo, htok, hjwt, hvid, hdb, hown, hpf, hff, hmt, hct, hcp, hsk, hperr]

/-- C7 witness: the concrete run where ffprobe exits non-zero. -/
theorem c7_witness :
    (handlerUploadVideo probeFailEnv).status = 500 ∧
    (handlerUploadVideo probeFailEnv).events =
      [Ev.tempCreated "/tmp/tubely-upload.mp4", Ev.ffprobeCalled "/tmp/tubely-upload.mp4",
       Ev.fileRemoved "/tmp/tubely-upload.mp4"] := by
  have h := c7_probe_failure_aborts_pipeline.2 probeFailEnv "owner" ownerRecord
    "ffprobe exited with a non-zero status" rfl rfl rfl rfl rfl rfl rfl rfl rfl rfl rfl rfl
  exact ⟨h.1, h.2.1⟩

/-- C5 counterexample: in the assets-directory thumbnail variant, an
authenticated non-owner request is answered 401, yet the thumbnail file has
already been created before the ownership check runs. -/
theorem c5_asset_created_before_ownership_check :
    (handlerUploadThumbnailAssets intruderThumbEnv).status = 401 ∧
    Ev.assetCreated ("assets/" ++ rawURLEncode (List.replicate 32 0) ++ ".jpeg") ∈
      (handlerUploadThumbnailAssets intruderThumbEnv).events := by
  decide

/-- C5 (amended): in the video upload handler, a request by an authenticated
user who does not own the target record is answered 401 with no file event
whatsoever — staging never happens. The assets-directory thumbnail variant
does not share this property. -/
theorem c5_amended_owner_check_before_staging (env : UploadEnv) (u : String) (rec : VideoRecord)
    (htok : env.tokenOk = true) (hjwt : env.jwtUser = some u) (hvid : env.videoIDOk = true)
    (hdb : env.dbVideo = some rec) (hown : rec.userID ≠ u) :
    (handlerUploadVideo env).status = 401 ∧ (handlerUploadVideo env).events = [] := by
  simp [handlerUploadVideo, htok, hjwt, hvid, hdb, hown]

/-- C5 witness: the concrete non-owner video upload request. -/
theorem c5_amended_witness :
    (handlerUploadVideo intruderEnv).status = 401 ∧ (handlerUploadVideo intruderEnv).events = [] :=
  c5_amended_owner_check_before_staging intruderEnv "intruder" ownerRecord rfl rfl rfl rfl
    (by decide)

/-- C3 counterexample: the data-URL thumbnail variant never validates the
declared content type: a request declaring `image/gif` is accepted with 200
instead of being rejected with 400. -/
theorem c3_gif_accepted_by_data_url_variant :
    (handlerUploadThumbnailDataURL gifThumbEnv).status = 200 ∧
    (handlerUploadThumbnailDataURL gifThumbEnv).status ≠ 400 ∧
    (handlerUploadThumbnailDataURL gifThumbEnv).body =
      some { userID := "owner", videoURL := none,
             thumbnailURL := some "data:image/gif;base64," } := by
  decide

/-- C3 (amended): the video upload handler rejects every declared content
type other than `video/mp4` with 400 before any file event, and the
assets-directory thumbnail variant rejects every type other than
`image/jpeg` and `image/png` with 400 before any file event; the data-URL
thumbnail variant performs no such validation. -/
theorem c3_amended_reject_unaccepted_type :
    (∀ (env : UploadEnv) (u ct : String) (rec : VideoRecord),
      env.tokenOk = true → env.jwtUser = some u → env.videoIDOk = true →
      env.dbVideo = some rec → rec.userID = u → env.parseFormOk = true →
      env.formFileOk = true → env.mediaType = some ct → ct ≠ "video/mp4" →
      (handlerUploadVideo env).status = 400 ∧ (handlerUploadVideo env).events = []) ∧
    (∀ (env : ThumbAssetsEnv) (u ct : String),
      env.videoIDOk = true → env.tokenOk = true → env.jwtUser = some u →
      env.formFileOk = true → env.mediaType = some ct →
      ct ≠ "image/jpeg" → ct ≠ "image/png" →
      (handlerUploadThumbnailAssets env).status = 400 ∧
        (handlerUploadThumbnailAssets env).events = []) := by
  constructor
  · intro env u ct rec htok hjwt hvid hdb hown hpf hff hmt hctype
    simp [handlerUploadVideo, htok, hjwt, hvid, hdb, hown, hpf, hff, hmt, hctype]
  · intro env u ct hvid htok hjwt hff hmt h1 h2
    simp [handlerUploadThumbnailAssets, hvid, htok, hjwt, hff, hmt, h1, h2]

/-- C3 witness: the concrete `image/gif` video upload request is rejected
with 400 and no file event. -/
theorem c3_amended_witness :
    (handlerUploadVideo gifVideoEnv).status = 400 ∧ (handlerUploadVideo gifVideoEnv).events = [] :=
  c3_amended_reject_unaccepted_type.1 gifVideoEnv "owner" "image/gif" ownerRecord
    rfl rfl rfl rfl rfl rfl rfl rfl (by decide)

/-- C2: evaluation of the handler at the two failing paths.  When the remux
succeeds but opening the processed file fails, the handler answers 500 and
removes the staged temp file, yet the processed file it created is never
removed (the removal is deferred only after a successful open); likewise,
when ffmpeg exits non-zero leaving a partial output file, that file is never
removed.  This contradicts the claimed removal of both files on every exit
path. -/
theorem c2_processed_file_leak :
    ((handlerUploadVideo leakEnv).status = 500 ∧
      Ev.processedCreated "/tmp/tubely-upload.processing.mp4" ∈
        (handlerUploadVideo leakEnv).events ∧
      Ev.fileRemoved "/tmp/tubely-upload.processing.mp4" ∉
        (handlerUploadVideo leakEnv).events ∧
      Ev.fileRemoved "/tmp/tubely-upload.mp4" ∈ (handlerUploadVideo leakEnv).events) ∧
    ((handlerUploadVideo remuxFailEnv).status = 500 ∧
      Ev.processedCreated "/tmp/tubely-upload.processing.mp4" ∈
        (handlerUploadVideo remuxFailEnv).events ∧
      Ev.fileRemoved "/tmp/tubely-upload.processing.mp4" ∉
        (handlerUploadVideo remuxFailEnv).events ∧
      Ev.fileRemoved "/tmp/tubely-upload.mp4" ∈ (handlerUploadVideo remuxFailEnv).events) := by
  with_unfolding_all decide

end Tubely
